import Mathlib

/-!
Shallow embedding of the C bridge layer of RocksDB.swift
(Sources/CRocksDB/RocksDBBridge.cpp / RocksDBBridge.h).

The underlying storage engine (rocksdb::DB, rocksdb::OptimisticTransactionDB,
rocksdb::Iterator, ...) is an external collaborator; it is modelled abstractly:
an engine status is a record of the boolean classification predicates the
bridge consults (`s.ok()`, `s.IsNotFound()`, ...), and an engine database is a
finite-map view of the keyspace together with the introspection interfaces the
bridge calls.  C pointers are modelled as `Option`; byte buffers as `List Nat`;
`malloc`/`strdup` are modelled as always succeeding.
-/

/-- The closed status-code taxonomy, `RocksDBStatusCode` from RocksDBBridge.h. -/
inductive RocksDBStatusCode where
  | OK
  | NotFound
  | Corruption
  | NotSupported
  | InvalidArgument
  | IOError
  | MergeInProgress
  | Incomplete
  | ShutdownInProgress
  | TimedOut
  | Aborted
  | Busy
  | Expired
  | TryAgain
  | CompactionTooLarge
deriving DecidableEq, Repr

/-- Model of `RocksDBStatus` from RocksDBBridge.h: a code plus an optional heap-owned
message (`char* message`; `none` models the null pointer). -/
structure RocksDBStatus where
  code : RocksDBStatusCode
  message : Option String
deriving DecidableEq, Repr

/-- Abstract model of `rocksdb::Status`, the engine-level outcome: the boolean
classification predicates the bridge consults, in the order `make_status`
tests them, plus the `ToString()` rendering. -/
structure EngineStatus where
  ok : Bool
  isNotFound : Bool
  isCorruption : Bool
  isNotSupported : Bool
  isInvalidArgument : Bool
  isIOError : Bool
  isMergeInProgress : Bool
  isIncomplete : Bool
  isShutdownInProgress : Bool
  isTimedOut : Bool
  isAborted : Bool
  isBusy : Bool
  isExpired : Bool
  isTryAgain : Bool
  isCompactionTooLarge : Bool
  msg : String
deriving DecidableEq, Repr

/-- The code assigned by `make_status` in its non-OK branch (RocksDBBridge.cpp
lines 91-122): the fixed if-else chain over the classification predicates,
with the final `else` falling through to IOError. -/
def non_ok_code (s : EngineStatus) : RocksDBStatusCode :=
  if s.isNotFound then RocksDBStatusCode.NotFound
  else if s.isCorruption then RocksDBStatusCode.Corruption
  else if s.isNotSupported then RocksDBStatusCode.NotSupported
  else if s.isInvalidArgument then RocksDBStatusCode.InvalidArgument
  else if s.isIOError then RocksDBStatusCode.IOError
  else if s.isMergeInProgress then RocksDBStatusCode.MergeInProgress
  else if s.isIncomplete then RocksDBStatusCode.Incomplete
  else if s.isShutdownInProgress then RocksDBStatusCode.ShutdownInProgress
  else if s.isTimedOut then RocksDBStatusCode.TimedOut
  else if s.isAborted then RocksDBStatusCode.Aborted
  else if s.isBusy then RocksDBStatusCode.Busy
  else if s.isExpired then RocksDBStatusCode.Expired
  else if s.isTryAgain then RocksDBStatusCode.TryAgain
  else if s.isCompactionTooLarge then RocksDBStatusCode.CompactionTooLarge
  else RocksDBStatusCode.IOError

/-- Model of `make_status` (RocksDBBridge.cpp lines 82-127): maps an engine status to a
`RocksDBStatus`.  OK carries no message; otherwise the code is chosen by the
if-else chain `non_ok_code` and the message is `strdup(s.ToString())`,
modelled as always succeeding. -/
def make_status (s : EngineStatus) : RocksDBStatus :=
  if s.ok then { code := RocksDBStatusCode.OK, message := none }
  else { code := non_ok_code s, message := some s.msg }

/-- Model of `make_ok` (RocksDBBridge.cpp lines 129-134). -/
def make_ok : RocksDBStatus :=
  { code := RocksDBStatusCode.OK, message := none }

/-- The engine status on a successful engine call: `ok()` holds and every
classification predicate is false. -/
def engineOkStatus : EngineStatus :=
  { ok := true, isNotFound := false, isCorruption := false, isNotSupported := false,
    isInvalidArgument := false, isIOError := false, isMergeInProgress := false,
    isIncomplete := false, isShutdownInProgress := false, isTimedOut := false,
    isAborted := false, isBusy := false, isExpired := false, isTryAgain := false,
    isCompactionTooLarge := false, msg := "" }

/-- The engine status returned by the engine when a looked-up key is absent:
`IsNotFound()` holds and no other predicate does. -/
def engineNotFoundStatus : EngineStatus :=
  { ok := false, isNotFound := true, isCorruption := false, isNotSupported := false,
    isInvalidArgument := false, isIOError := false, isMergeInProgress := false,
    isIncomplete := false, isShutdownInProgress := false, isTimedOut := false,
    isAborted := false, isBusy := false, isExpired := false, isTryAgain := false,
    isCompactionTooLarge := false, msg := "NotFound: " }

/-- A status on which the caller owns the allocated message string: the
repeated InvalidArgument construction pattern of the null-handle guards
(e.g. RocksDBBridge.cpp lines 340-345). -/
def invalid_argument_status (m : String) : RocksDBStatus :=
  { code := RocksDBStatusCode.InvalidArgument, message := some m }

/-- Abstract model of an open engine database (`rocksdb::DB`): the logical
keyspace contents plus the introspection interfaces the bridge calls
(`KeyMayExist`, `GetProperty`, `GetApproximateSizes`). -/
structure EngineDB where
  store : List Nat → Option (List Nat)
  mayExist : List Nat → Bool
  props : String → Option String
  approxSize : List Nat × List Nat → Nat

/-- Abstract model of `rocksdb::OptimisticTransactionDB`: it wraps a base
database (`GetBaseDB`). -/
structure TxnDB where
  base : EngineDB

/-- One buffered operation of a `rocksdb::WriteBatch` or of a transaction's
write set. -/
inductive BatchOp where
  | put (key value : List Nat)
  | del (key : List Nat)
  | delRange (startKey endKey : List Nat)

/-- Abstract model of `rocksdb::Transaction` as produced by
`BeginTransaction`: the owning transaction database, the ordered buffered
(uncommitted) writes, and the LIFO savepoint stack, each saved entry being the
buffered writes at the time of `SetSavePoint`. -/
structure EngineTransaction where
  parent : TxnDB
  writes : List BatchOp
  savepoints : List (List BatchOp)

/-- Model of `RocksDBHandle` (RocksDBBridge.cpp lines 28-40): the fields the bridge
reads.  Null pointers are `none`. -/
structure RocksDBHandle where
  db : Option EngineDB
  txn_db : Option TxnDB
  is_transactional : Bool

/-- Model of `RocksDBTransactionHandle` (RocksDBBridge.cpp lines 54-60). -/
structure RocksDBTransactionHandle where
  txn : Option EngineTransaction

/-- Abstract model of a `rocksdb::Iterator`: its validity flag and, when
valid, the current entry. -/
structure EngineIterator where
  valid : Bool
  key : List Nat
  value : List Nat

/-- Model of `RocksDBIteratorHandle` (RocksDBBridge.cpp lines 42-48). -/
structure RocksDBIteratorHandle where
  iter : Option EngineIterator

/-- Engine semantics of `DB::Get` on the modelled keyspace: a present key
yields the stored value with the OK status, an absent key yields the NotFound
status (and an empty output string the bridge then ignores). -/
def engineGet (e : EngineDB) (k : List Nat) : EngineStatus × List Nat :=
  match e.store k with
  | some v => (engineOkStatus, v)
  | none => (engineNotFoundStatus, [])

-- =============================================================================
-- Open operations
-- =============================================================================

/-- Result of one of the three open operations: the returned status, the value
stored through `db_out`, and whether the locally allocated `RocksDBHandle` was
freed (`delete handle`) before returning. -/
structure OpenOutcome where
  status : RocksDBStatus
  db_out : Option RocksDBHandle
  handle_freed : Bool

/-- Model of `rocksdb_open` (RocksDBBridge.cpp lines 280-291).  The engine call
`rocksdb::DB::Open` is abstracted by its outcome: the status `s` it returns
and the pointer `enginedb` it stores into `handle->db`. -/
def rocksdb_open (s : EngineStatus) (enginedb : Option EngineDB) : OpenOutcome :=
  if s.ok then
    { status := make_status s,
      db_out := some { db := enginedb, txn_db := none, is_transactional := false },
      handle_freed := false }
  else
    { status := make_status s, db_out := none, handle_freed := true }

/-- Model of `rocksdb_open_for_read_only` (RocksDBBridge.cpp lines 293-306).  The
`error_if_wal_exists` flag is forwarded to the engine, whose outcome is
abstracted by `s` and `enginedb` as in `rocksdb_open`. -/
def rocksdb_open_for_read_only (s : EngineStatus) (enginedb : Option EngineDB)
    (_error_if_wal_exists : Int) : OpenOutcome :=
  if s.ok then
    { status := make_status s,
      db_out := some { db := enginedb, txn_db := none, is_transactional := false },
      handle_freed := false }
  else
    { status := make_status s, db_out := none, handle_freed := true }

/-- Model of `rocksdb_open_transactional` (RocksDBBridge.cpp lines 308-323): the handle
is created with `is_transactional = true`; on engine success `handle->db` is
set to `txn_db->GetBaseDB()` (the engine contract guarantees `tdb` is non-null
on success; the unreachable success-with-null case is modelled with a null
base pointer). -/
def rocksdb_open_transactional (s : EngineStatus) (tdb : Option TxnDB) : OpenOutcome :=
  if s.ok then
    match tdb with
    | some t =>
        { status := make_status s,
          db_out := some { db := some t.base, txn_db := some t, is_transactional := true },
          handle_freed := false }
    | none =>
        { status := make_status s,
          db_out := some { db := none, txn_db := none, is_transactional := true },
          handle_freed := false }
  else
    { status := make_status s, db_out := none, handle_freed := true }

-- =============================================================================
-- Key-value operations
-- =============================================================================

/-- Result of `rocksdb_get`: the status plus the two out-parameters
(`*value_out`, `*value_len_out`); `value_out = none` models the null
pointer. -/
structure GetResult where
  status : RocksDBStatus
  value_out : Option (List Nat)
  value_len_out : Nat
deriving Repr

/-- Model of `rocksdb_get` (RocksDBBridge.cpp lines 360-393): out-parameters are
initialized to (null, 0); after the null-handle guard the engine `Get` runs
and, only on OK, the value is copied into a fresh `malloc` buffer (modelled as
always succeeding) whose length is written out. -/
def rocksdb_get (db : Option RocksDBHandle) (key : List Nat) : GetResult :=
  match db with
  | none =>
      { status := invalid_argument_status "Database is null",
        value_out := none, value_len_out := 0 }
  | some h =>
    match h.db with
    | none =>
        { status := invalid_argument_status "Database is null",
          value_out := none, value_len_out := 0 }
    | some e =>
        match engineGet e key with
        | (s, v) =>
          if s.ok then
            { status := make_status s, value_out := some v, value_len_out := v.length }
          else
            { status := make_status s, value_out := none, value_len_out := 0 }

/-- Model of `rocksdb_iterator_valid` (RocksDBBridge.cpp lines 523-525). -/
def rocksdb_iterator_valid (it : Option RocksDBIteratorHandle) : Int :=
  match it with
  | none => 0
  | some h =>
    match h.iter with
    | none => 0
    | some i => if i.valid then 1 else 0

/-- Model of `rocksdb_iterator_key` (RocksDBBridge.cpp lines 563-572): the returned
borrowed pointer plus the length out-parameter; (null, 0) whenever the handle
is null, the inner iterator is null, or the iterator is not valid. -/
def rocksdb_iterator_key (it : Option RocksDBIteratorHandle) :
    Option (List Nat) × Nat :=
  match it with
  | none => (none, 0)
  | some h =>
    match h.iter with
    | none => (none, 0)
    | some i => if i.valid then (some i.key, i.key.length) else (none, 0)

/-- Model of `rocksdb_iterator_value` (RocksDBBridge.cpp lines 574-583): same shape as
`rocksdb_iterator_key` for the current value. -/
def rocksdb_iterator_value (it : Option RocksDBIteratorHandle) :
    Option (List Nat) × Nat :=
  match it with
  | none => (none, 0)
  | some h =>
    match h.iter with
    | none => (none, 0)
    | some i => if i.valid then (some i.value, i.value.length) else (none, 0)

/-- Model of `rocksdb_transaction_begin` (RocksDBBridge.cpp lines 599-612): returns
null unless the handle is non-null, transactional, and holds a transaction
database; otherwise wraps `BeginTransaction`. -/
def rocksdb_transaction_begin (db : Option RocksDBHandle) :
    Option RocksDBTransactionHandle :=
  match db with
  | none => none
  | some h =>
    if h.is_transactional = false then none
    else
      match h.txn_db with
      | none => none
      | some t => some { txn := some { parent := t, writes := [], savepoints := [] } }

/-- The slice-pointer argument passed to the engine's `CompactRange` for one
bound (RocksDBBridge.cpp lines 799-810): the bound is used only when the key
pointer is non-null and its length is positive, otherwise the null pointer
(no bound) is passed. -/
def compact_bound (key : Option (List Nat)) : Option (List Nat) :=
  match key with
  | none => none
  | some k => if 0 < k.length then some k else none

/-- Model of `rocksdb_compact_range` (RocksDBBridge.cpp lines 787-814): null-handle
guard, then the engine `CompactRange` is invoked with the two optional bounds.
The result records the status and, when the engine was invoked, the bounds it
received. -/
def rocksdb_compact_range (db : Option RocksDBHandle)
    (start_key end_key : Option (List Nat)) :
    RocksDBStatus × Option (Option (List Nat) × Option (List Nat)) :=
  match db with
  | none => (invalid_argument_status "Database is null", none)
  | some h =>
    match h.db with
    | none => (invalid_argument_status "Database is null", none)
    | some _ =>
        (make_status engineOkStatus, some (compact_bound start_key, compact_bound end_key))

/-- Model of `rocksdb_get_property` (RocksDBBridge.cpp lines 831-841): null on a null
handle or when the engine does not know the property; otherwise
`strdup(value.c_str())` of the engine's value, modelled as the value itself. -/
def rocksdb_get_property (db : Option RocksDBHandle) (property : String) :
    Option String :=
  match db with
  | none => none
  | some h =>
    match h.db with
    | none => none
    | some e =>
      match e.props property with
      | some v => some v
      | none => none

/-- Model of `rocksdb_get_approximate_sizes` (RocksDBBridge.cpp lines 843-865): returns
with `sizes_out` untouched on a null handle or non-positive `num_ranges`;
otherwise the engine writes one estimate per supplied range into the first
`num_ranges` slots of `sizes_out`, leaving the rest unchanged. -/
def rocksdb_get_approximate_sizes (db : Option RocksDBHandle) (num_ranges : Int)
    (ranges : List (List Nat × List Nat)) (sizes_out : List Nat) : List Nat :=
  match db with
  | none => sizes_out
  | some h =>
    match h.db with
    | none => sizes_out
    | some e =>
      if num_ranges ≤ 0 then sizes_out
      else
        ((ranges.take num_ranges.toNat).map e.approxSize)
          ++ sizes_out.drop num_ranges.toNat

-- =============================================================================
-- Concrete fixtures
-- =============================================================================

/-- A small concrete engine database: key `[1]` holds `[2]`, key `[7]` holds
the zero-length value, and nothing else is stored; the property `"stats"` is
known with the empty-string value. -/
def sampleDB : EngineDB :=
  { store := fun k => if k = [1] then some [2] else if k = [7] then some [] else none,
    mayExist := fun _ => true,
    props := fun p => if p = "stats" then some "" else none,
    approxSize := fun r => r.1.length + r.2.length }

/-- The handle produced by a successful read-write open of `sampleDB`. -/
def sampleHandle : RocksDBHandle :=
  { db := some sampleDB, txn_db := none, is_transactional := false }

/-- A concrete transactional engine database over `sampleDB`. -/
def sampleTxnDB : TxnDB :=
  { base := sampleDB }

/-- The handle produced by a successful transactional open of `sampleTxnDB`. -/
def sampleTxnHandle : RocksDBHandle :=
  { db := some sampleTxnDB.base, txn_db := some sampleTxnDB, is_transactional := true }

-- =============================================================================
-- Helper lemmas
-- =============================================================================

/-- A compaction bound is omitted (null slice pointer) exactly when the key
pointer is null or the key has length zero. -/
theorem compact_bound_eq_none_iff (o : Option (List Nat)) :
    compact_bound o = none ↔ o = none ∨ o = some [] := by
  cases o with
  | none => simp [compact_bound]
  | some k =>
    cases k with
    | nil => simp [compact_bound]
    | cons a as => simp [compact_bound]

/-- An if-then-else of status codes avoids OK when both branches do. -/
theorem ite_code_ne_ok {c : Prop} [Decidable c] (x y : RocksDBStatusCode)
    (hx : x ≠ RocksDBStatusCode.OK) (hy : y ≠ RocksDBStatusCode.OK) :
    (if c then x else y) ≠ RocksDBStatusCode.OK := by
  by_cases h : c <;> simp [h, hx, hy]

/-- The non-OK if-else chain never yields the OK code: no engine condition is
silently dropped. -/
theorem non_ok_code_ne_ok (s : EngineStatus) :
    non_ok_code s ≠ RocksDBStatusCode.OK := by
  unfold non_ok_code
  repeat' apply ite_code_ne_ok
  all_goals decide

/-- On an OK engine status, `make_status` is the messageless OK status. -/
theorem make_status_of_ok (s : EngineStatus) (h : s.ok = true) :
    make_status s = { code := RocksDBStatusCode.OK, message := none } := by
  simp [make_status, h]

/-- On a non-OK engine status, `make_status` pairs the chain's code with the
rendered message. -/
theorem make_status_of_not_ok (s : EngineStatus) (h : s.ok = false) :
    make_status s = { code := non_ok_code s, message := some s.msg } := by
  simp [make_status, h]

-- =============================================================================
-- Claim theorems
-- =============================================================================

/-- Claim C1: the mapping computed by `make_status` is deterministic and total:
it yields OK exactly on engine-OK conditions (so no non-OK condition is
dropped), NotFound is tested before the generic IOError fallback (a missing
key maps to NotFound no matter what other predicates report), and a non-OK
condition recognized by none of the fourteen predicates maps to IOError. -/
theorem make_status_total_priority (s : EngineStatus) :
    ((make_status s).code = RocksDBStatusCode.OK ↔ s.ok = true) ∧
    (s.ok = false → s.isNotFound = true →
      (make_status s).code = RocksDBStatusCode.NotFound) ∧
    (s.ok = false → s.isNotFound = false → s.isCorruption = false →
      s.isNotSupported = false → s.isInvalidArgument = false → s.isIOError = false →
      s.isMergeInProgress = false → s.isIncomplete = false →
      s.isShutdownInProgress = false → s.isTimedOut = false → s.isAborted = false →
      s.isBusy = false → s.isExpired = false → s.isTryAgain = false →
      s.isCompactionTooLarge = false →
      (make_status s).code = RocksDBStatusCode.IOError) := by
  refine ⟨?_, ?_, ?_⟩
  · cases h : s.ok
    · rw [make_status_of_not_ok s h]
      simp [non_ok_code_ne_ok s]
    · rw [make_status_of_ok s h]
      simp
  · intro h0 h1
    rw [make_status_of_not_ok s h0]
    simp [non_ok_code, h1]
  · intro h0 h1 h2 h3 h4 h5 h6 h7 h8 h9 h10 h11 h12 h13 h14
    rw [make_status_of_not_ok s h0]
    simp [non_ok_code, h1, h2, h3, h4, h5, h6, h7, h8, h9, h10, h11, h12, h13, h14]

/-- Concrete instances of `make_status_total_priority`: the engine NotFound
condition maps to NotFound, and a condition no predicate recognizes maps to
IOError. -/
theorem make_status_total_priority_witness :
    (make_status engineNotFoundStatus).code = RocksDBStatusCode.NotFound ∧
    (make_status { engineNotFoundStatus with isNotFound := false, msg := "odd" }).code
      = RocksDBStatusCode.IOError := by
  refine ⟨(make_status_total_priority engineNotFoundStatus).2.1 rfl rfl, ?_⟩
  exact (make_status_total_priority _).2.2 rfl rfl rfl rfl rfl rfl rfl rfl rfl rfl
    rfl rfl rfl rfl rfl

/-- Claim C7: a status built by `make_status` carries a message exactly when its
code is non-OK (and `make_ok` is the messageless OK status). -/
theorem status_message_iff_nonok (s : EngineStatus) :
    ((make_status s).message = none ↔ (make_status s).code = RocksDBStatusCode.OK) ∧
    make_ok = { code := RocksDBStatusCode.OK, message := none } := by
  refine ⟨?_, rfl⟩
  cases h : s.ok
  · rw [make_status_of_not_ok s h]
    simp [non_ok_code_ne_ok s]
  · rw [make_status_of_ok s h]
    simp

/-- Claim C3: on an open database, `rocksdb_get` of an absent key returns the
NotFound status with null output buffer and zero length; for a present key it
returns OK (no message) together with a freshly allocated buffer holding the
stored value and its length, including when the stored value is
zero-length. -/
theorem rocksdb_get_contract (h : RocksDBHandle) (e : EngineDB) (k : List Nat)
    (hdb : h.db = some e) :
    (e.store k = none →
      (rocksdb_get (some h) k).status.code = RocksDBStatusCode.NotFound ∧
      (rocksdb_get (some h) k).value_out = none ∧
      (rocksdb_get (some h) k).value_len_out = 0) ∧
    (∀ v, e.store k = some v →
      (rocksdb_get (some h) k).status.code = RocksDBStatusCode.OK ∧
      (rocksdb_get (some h) k).status.message = none ∧
      (rocksdb_get (some h) k).value_out = some v ∧
      (rocksdb_get (some h) k).value_len_out = v.length) := by
  constructor
  · intro habs
    simp [rocksdb_get, hdb, engineGet, habs, make_status, engineNotFoundStatus,
      non_ok_code]
  · intro v hv
    simp [rocksdb_get, hdb, engineGet, hv, make_status, engineOkStatus]

/-- Concrete instances of `rocksdb_get_contract` on `sampleDB`: an absent key,
a present key, and a present key holding the zero-length value. -/
theorem rocksdb_get_contract_witness :
    (rocksdb_get (some sampleHandle) [3]).status.code = RocksDBStatusCode.NotFound ∧
    (rocksdb_get (some sampleHandle) [3]).value_out = none ∧
    (rocksdb_get (some sampleHandle) [1]).status.code = RocksDBStatusCode.OK ∧
    (rocksdb_get (some sampleHandle) [1]).value_out = some [2] ∧
    (rocksdb_get (some sampleHandle) [7]).status.code = RocksDBStatusCode.OK ∧
    (rocksdb_get (some sampleHandle) [7]).value_out = some [] ∧
    (rocksdb_get (some sampleHandle) [7]).value_len_out = 0 := by
  have h3 := (rocksdb_get_contract sampleHandle sampleDB [3] rfl).1 (by decide)
  have h1 := (rocksdb_get_contract sampleHandle sampleDB [1] rfl).2 [2] (by decide)
  have h7 := (rocksdb_get_contract sampleHandle sampleDB [7] rfl).2 [] (by decide)
  exact ⟨h3.1, h3.2.1, h1.1, h1.2.2.1, h7.1, h7.2.2.1, h7.2.2.2⟩

/-- Claim C4: whenever the underlying engine open fails, each of the three
open operations stores null through `db_out` and frees the partially
allocated handle before returning, so no partial or leaked handle is
observable. -/
theorem open_failure_no_leak (s : EngineStatus) (d : Option EngineDB)
    (wal : Int) (t : Option TxnDB) (h : s.ok = false) :
    ((rocksdb_open s d).db_out = none ∧ (rocksdb_open s d).handle_freed = true) ∧
    ((rocksdb_open_for_read_only s d wal).db_out = none ∧
      (rocksdb_open_for_read_only s d wal).handle_freed = true) ∧
    ((rocksdb_open_transactional s t).db_out = none ∧
      (rocksdb_open_transactional s t).handle_freed = true) := by
  simp [rocksdb_open, rocksdb_open_for_read_only, rocksdb_open_transactional, h]

/-- Concrete instance of `open_failure_no_leak` at a failing engine status. -/
theorem open_failure_no_leak_witness :
    (rocksdb_open engineNotFoundStatus (some sampleDB)).db_out = none ∧
    (rocksdb_open_transactional engineNotFoundStatus (some sampleTxnDB)).handle_freed
      = true := by
  have h := open_failure_no_leak engineNotFoundStatus (some sampleDB) 0
    (some sampleTxnDB) rfl
  exact ⟨h.1.1, h.2.2.2⟩

/-- Claim C5: when the iterator is not valid (null handle, null inner
iterator, or an invalid cursor), the key and value accessors both yield the
empty result: null pointer and length zero. -/
theorem iterator_accessors_invalid_empty (it : Option RocksDBIteratorHandle)
    (h : rocksdb_iterator_valid it = 0) :
    rocksdb_iterator_key it = (none, 0) ∧ rocksdb_iterator_value it = (none, 0) := by
  cases it with
  | none => exact ⟨rfl, rfl⟩
  | some hh =>
    cases hit : hh.iter with
    | none => simp [rocksdb_iterator_key, rocksdb_iterator_value, hit]
    | some i =>
      cases hv : i.valid with
      | false => simp [rocksdb_iterator_key, rocksdb_iterator_value, hit, hv]
      | true =>
        exfalso
        rw [rocksdb_iterator_valid] at h
        simp [hit, hv] at h

/-- Concrete instances of `iterator_accessors_invalid_empty`: the null handle
and an exhausted (invalid) iterator. -/
theorem iterator_accessors_invalid_empty_witness :
    rocksdb_iterator_key none = (none, 0) ∧
    rocksdb_iterator_value
      (some { iter := some { valid := false, key := [1], value := [2] } })
      = (none, 0) := by
  refine ⟨(iterator_accessors_invalid_empty none rfl).1, ?_⟩
  exact (iterator_accessors_invalid_empty
    (some { iter := some { valid := false, key := [1], value := [2] } }) rfl).2

/-- Claim C6: `rocksdb_transaction_begin` produces a transaction exactly for
handles obtained from a successful transactional open: it returns null on a
null handle and on any handle produced by the read-write or read-only open
(which are non-transactional), and it returns a transaction for a handle
produced by a successful transactional open. -/
theorem transaction_begin_iff_transactional :
    rocksdb_transaction_begin none = none ∧
    (∀ (s : EngineStatus) (d : Option EngineDB) (h : RocksDBHandle),
      (rocksdb_open s d).db_out = some h →
      rocksdb_transaction_begin (some h) = none) ∧
    (∀ (s : EngineStatus) (d : Option EngineDB) (w : Int) (h : RocksDBHandle),
      (rocksdb_open_for_read_only s d w).db_out = some h →
      rocksdb_transaction_begin (some h) = none) ∧
    (∀ (s : EngineStatus) (t : TxnDB) (h : RocksDBHandle),
      (rocksdb_open_transactional s (some t)).db_out = some h →
      (rocksdb_transaction_begin (some h)).isSome = true) := by
  refine ⟨rfl, ?_, ?_, ?_⟩
  · intro s d h hh
    cases hs : s.ok
    · simp [rocksdb_open, hs] at hh
    · simp [rocksdb_open, hs] at hh
      subst hh
      rfl
  · intro s d w h hh
    cases hs : s.ok
    · simp [rocksdb_open_for_read_only, hs] at hh
    · simp [rocksdb_open_for_read_only, hs] at hh
      subst hh
      rfl
  · intro s t h hh
    cases hs : s.ok
    · simp [rocksdb_open_transactional, hs] at hh
    · simp [rocksdb_open_transactional, hs] at hh
      subst hh
      rfl

/-- Concrete instances of `transaction_begin_iff_transactional`: the handle
from a successful read-write open yields no transaction, the handle from a
successful transactional open yields one. -/
theorem transaction_begin_iff_transactional_witness :
    rocksdb_transaction_begin (some sampleHandle) = none ∧
    (rocksdb_transaction_begin (some sampleTxnHandle)).isSome = true := by
  constructor
  · exact transaction_begin_iff_transactional.2.1 engineOkStatus (some sampleDB)
      sampleHandle rfl
  · exact transaction_begin_iff_transactional.2.2.2 engineOkStatus sampleTxnDB
      sampleTxnHandle rfl

/-- Claim C8: on an open database, `rocksdb_compact_range` invokes the engine
compaction with each bound treated as omitted (null, meaning the corresponding
extreme of the keyspace) exactly when that bound's pointer is null or its
length is zero, and passed through unchanged otherwise. -/
theorem compact_range_bounds (h : RocksDBHandle) (e : EngineDB)
    (sk ek : Option (List Nat)) (hdb : h.db = some e) :
    (rocksdb_compact_range (some h) sk ek).2
      = some (compact_bound sk, compact_bound ek) ∧
    (compact_bound sk = none ↔ sk = none ∨ sk = some []) ∧
    (∀ k, sk = some k → k ≠ [] → compact_bound sk = some k) ∧
    (compact_bound ek = none ↔ ek = none ∨ ek = some []) ∧
    (∀ k, ek = some k → k ≠ [] → compact_bound ek = some k) := by
  refine ⟨by simp [rocksdb_compact_range, hdb], compact_bound_eq_none_iff sk,
    ?_, compact_bound_eq_none_iff ek, ?_⟩
  · intro k hk hne
    subst hk
    cases k with
    | nil => exact absurd rfl hne
    | cons a as => simp [compact_bound]
  · intro k hk hne
    subst hk
    cases k with
    | nil => exact absurd rfl hne
    | cons a as => simp [compact_bound]

/-- Concrete instance of `compact_range_bounds`: a zero-length start key is
omitted while a non-empty end key is passed through. -/
theorem compact_range_bounds_witness :
    (rocksdb_compact_range (some sampleHandle) (some []) (some [9])).2
      = some (none, some [9]) := by
  have h := compact_range_bounds sampleHandle sampleDB (some []) (some [9]) rfl
  rw [h.1, (compact_bound_eq_none_iff (some [])).mpr (Or.inr rfl),
    h.2.2.2.2 [9] rfl (by decide)]

/-- Claim C9: on an open database, `rocksdb_get_property` returns null exactly
when the engine does not know the property, and a known property whose value
is the empty string yields the non-null empty string, which is distinguishable
from the absent result. -/
theorem get_property_absent_vs_empty (h : RocksDBHandle) (e : EngineDB)
    (p : String) (hdb : h.db = some e) :
    (e.props p = none → rocksdb_get_property (some h) p = none) ∧
    (∀ v, e.props p = some v → rocksdb_get_property (some h) p = some v) ∧
    (e.props p = some "" →
      rocksdb_get_property (some h) p = some "" ∧
      (some "" : Option String) ≠ none) := by
  refine ⟨fun habs => by simp [rocksdb_get_property, hdb, habs],
    fun v hv => by simp [rocksdb_get_property, hdb, hv],
    fun hv => ⟨by simp [rocksdb_get_property, hdb, hv], by simp⟩⟩

/-- Concrete instances of `get_property_absent_vs_empty` on `sampleDB`: the
unknown property `"bogus"` is absent, the known property `"stats"` yields the
non-null empty string. -/
theorem get_property_absent_vs_empty_witness :
    rocksdb_get_property (some sampleHandle) "bogus" = none ∧
    rocksdb_get_property (some sampleHandle) "stats" = some "" := by
  constructor
  · exact (get_property_absent_vs_empty sampleHandle sampleDB "bogus" rfl).1
      (by decide)
  · exact ((get_property_absent_vs_empty sampleHandle sampleDB "stats" rfl).2.2
      (by decide)).1

/-- Claim C10: `rocksdb_get_approximate_sizes` leaves the caller's `sizes_out`
array entirely unchanged when the handle (outer or inner pointer) is null or
`num_ranges` is not positive; otherwise it writes exactly `num_ranges`
entries, one engine estimate per supplied range, and leaves every later slot
unchanged. -/
theorem approximate_sizes_frame :
    (∀ nr ranges sizes,
      rocksdb_get_approximate_sizes none nr ranges sizes = sizes) ∧
    (∀ (h : RocksDBHandle) nr ranges sizes, h.db = none →
      rocksdb_get_approximate_sizes (some h) nr ranges sizes = sizes) ∧
    (∀ (h : RocksDBHandle) (e : EngineDB) nr ranges sizes, h.db = some e →
      nr ≤ 0 → rocksdb_get_approximate_sizes (some h) nr ranges sizes = sizes) ∧
    (∀ (h : RocksDBHandle) (e : EngineDB) (nr : Int) ranges sizes,
      h.db = some e → 0 < nr → nr.toNat ≤ ranges.length →
      nr.toNat ≤ sizes.length →
      (rocksdb_get_approximate_sizes (some h) nr ranges sizes).length
        = sizes.length ∧
      List.take nr.toNat (rocksdb_get_approximate_sizes (some h) nr ranges sizes)
        = (ranges.take nr.toNat).map e.approxSize ∧
      List.drop nr.toNat (rocksdb_get_approximate_sizes (some h) nr ranges sizes)
        = sizes.drop nr.toNat) := by
  refine ⟨fun nr ranges sizes => rfl, fun h nr ranges sizes hdb => ?_,
    fun h e nr ranges sizes hdb hle => ?_, fun h e nr ranges sizes hdb hpos hr hs => ?_⟩
  · simp [rocksdb_get_approximate_sizes, hdb]
  · simp [rocksdb_get_approximate_sizes, hdb, hle]
  · have hnz : ¬ nr ≤ 0 := not_le.mpr hpos
    have hlenA : ((ranges.take nr.toNat).map e.approxSize).length = nr.toNat := by
      simp [List.length_take]
      omega
    have hres : rocksdb_get_approximate_sizes (some h) nr ranges sizes
        = ((ranges.take nr.toNat).map e.approxSize) ++ sizes.drop nr.toNat := by
      simp [rocksdb_get_approximate_sizes, hdb, hnz]
    refine ⟨?_, ?_, ?_⟩
    · rw [hres]
      simp [hlenA]
      omega
    · rw [hres, List.take_left' hlenA]
    · rw [hres, List.drop_left' hlenA]

/-- Concrete instance of `approximate_sizes_frame`: with two caller slots and
one range, the first slot receives the estimate and the second is left
unchanged. -/
theorem approximate_sizes_frame_witness :
    rocksdb_get_approximate_sizes (some sampleHandle) 1 [([0], [5, 5])] [9, 4]
      = [3, 4] ∧
    rocksdb_get_approximate_sizes none 1 [([0], [5, 5])] [9, 4] = [9, 4] := by
  have h := approximate_sizes_frame.2.2.2 sampleHandle sampleDB 1 [([0], [5, 5])]
    [9, 4] rfl (by decide) (by decide) (by decide)
  have h0 := approximate_sizes_frame.1 1 [([0], [5, 5])] [9, 4]
  constructor
  · have ht := h.2.1
    have hd := h.2.2
    have hl := h.1
    rw [show (rocksdb_get_approximate_sizes (some sampleHandle) 1
        [([0], [5, 5])] [9, 4]) = List.take (1 : Int).toNat
          (rocksdb_get_approximate_sizes (some sampleHandle) 1 [([0], [5, 5])] [9, 4])
        ++ List.drop (1 : Int).toNat
          (rocksdb_get_approximate_sizes (some sampleHandle) 1 [([0], [5, 5])] [9, 4])
      from (List.take_append_drop _ _).symm, ht, hd]
    rfl
  · exact h0
